import Mathlib

/-! Docker agent reverse proxy (`src/sdk/agent/dockeragent.go`)

A shallow embedding of the Go file `dockeragent.go` of App Mesh: the request
handler `dockerReverseProxyHandler`, the startup functions `listenDockerAgent`,
`loadServerCertificates` and `listenDocker`, and the library calls they make.

Calls that leave the file (the fasthttp host client, the filesystem test, the
listener, the certificate loader) are passed in as parameters; every effect the
functions have on the outside (a log line, a pool teardown, a serve call, a
fatal exit) is recorded, in program order, in a list of events.
-/

/-! ## Go library functions the startup path calls

`listenDocker` hands its argument to `url.Parse` and reads `Hostname()` and
`Port()` off the result; the address it builds is later split by the listener
(`net.Listen`) with `net.SplitHostPort`. These are functions of the Go standard library
(`net/url/url.go`, `net/ipsock.go`), transcribed here so that the startup path
can be evaluated on a concrete address. A Go string is a sequence of bytes; it
is a `List Char` here, one `Char` per byte. -/

namespace strings

/-- Embeds `strings.IndexByte(s, c)`, `none` for `-1`. -/
def IndexByte : List Char → Char → Option Nat
  | [], _ => none
  | x :: xs, c => if x = c then some 0 else (IndexByte xs c).map (· + 1)

/-- Embeds `strings.LastIndexByte(s, c)`, `none` for `-1`. -/
def LastIndexByte : List Char → Char → Option Nat
  | [], _ => none
  | x :: xs, c =>
    match LastIndexByte xs c with
    | some i => some (i + 1)
    | none => if x = c then some 0 else none

/-- Embeds `strings.HasPrefix(s, p)` -/
def startsWith : List Char → List Char → Bool
  | _, [] => true
  | [], _ :: _ => false
  | x :: xs, p :: ps => x = p && startsWith xs ps

/-- Embeds `strings.HasSuffix(s, p)` -/
def endsWith (s p : List Char) : Bool :=
  startsWith s.reverse p.reverse

/-- Embeds `strings.Index(s, sub)` for a non-empty `sub`, `none` for `-1`. -/
def Index : List Char → List Char → Option Nat
  | [], _ => none
  | x :: xs, sub =>
    if startsWith (x :: xs) sub then some 0 else (Index xs sub).map (· + 1)

/-- Embeds `strings.Count(s, string(c))` -/
def Count (s : List Char) (c : Char) : Nat :=
  s.count c

/-- Embeds `strings.Cut(s, string(c))`: the text before and after the first `c`, and
whether `c` was found (when not, the whole of `s` and the empty string). -/
def Cut (s : List Char) (c : Char) : List Char × List Char × Bool :=
  match IndexByte s c with
  | some i => (s.take i, s.drop (i + 1), true)
  | none => (s, [], false)

end strings

namespace url

/-- The errors `url.Parse` can return, one constructor per `return` of an error
in `net/url/url.go`; the payload is the text the Go error quotes. -/
inductive Error where
  /-- Embeds `net/url: invalid control character in URL` -/
  | invalidControlCharacter
  /-- Embeds `missing protocol scheme` -/
  | missingProtocolScheme
  /-- Embeds `first path segment in URL cannot contain colon` -/
  | firstPathSegmentColon
  /-- Embeds `missing ']' in host` -/
  | missingBracket
  /-- Embeds `invalid port %q after host` -/
  | invalidPort (colonPort : List Char)
  /-- Embeds `net/url: invalid userinfo` -/
  | invalidUserinfo
  /-- Embeds `EscapeError`: `invalid URL escape %q` -/
  | EscapeError (s : List Char)
  /-- Embeds `InvalidHostError`: `invalid character %q in host name` -/
  | InvalidHostError (s : List Char)
deriving DecidableEq, Repr

/-- The `encoding` modes of `net/url`. -/
inductive encoding where
  | encodePath
  | encodePathSegment
  | encodeHost
  | encodeZone
  | encodeUserPassword
  | encodeQueryComponent
  | encodeFragment
deriving DecidableEq, Repr

/-- Embeds `lo <= c && c <= hi` on bytes. -/
def inRange (lo hi c : Char) : Bool :=
  decide (lo.toNat ≤ c.toNat) && decide (c.toNat ≤ hi.toNat)

/-- Embeds `func ishex(c byte) bool` -/
def ishex (c : Char) : Bool :=
  inRange '0' '9' c || inRange 'a' 'f' c || inRange 'A' 'F' c

/-- Embeds `func unhex(c byte) byte` -/
def unhex (c : Char) : Nat :=
  if inRange '0' '9' c then c.toNat - ('0').toNat
  else if inRange 'a' 'f' c then c.toNat - ('a').toNat + 10
  else if inRange 'A' 'F' c then c.toNat - ('A').toNat + 10
  else 0

/-- Embeds `func shouldEscape(c byte, mode encoding) bool` -/
def shouldEscape (c : Char) (mode : encoding) : Bool :=
  -- §2.3 Unreserved characters (alphanum)
  if inRange 'a' 'z' c || inRange 'A' 'Z' c || inRange '0' '9' c then false
  else if (mode = .encodeHost || mode = .encodeZone) &&
      c ∈ ['!', '$', '&', '\'', '(', ')', '*', '+', ',', ';', '=', ':', '[', ']', '<', '>', '"'] then
    false
  else if c ∈ ['-', '_', '.', '~'] then false
  else if c ∈ ['$', '&', '+', ',', '/', ':', ';', '=', '?', '@'] then
    -- §2.2 Reserved characters (reserved)
    match mode with
    | .encodePath => c = '?'
    | .encodePathSegment => c = '/' || c = ';' || c = ',' || c = '?'
    | .encodeUserPassword => c = '@' || c = '/' || c = '?' || c = ':'
    | .encodeQueryComponent => true
    | .encodeFragment => false
    -- host and zone fall out of the switch and reach the final `return true`
    | .encodeHost => true
    | .encodeZone => true
  else if mode = .encodeFragment && c ∈ ['!', '(', ')', '*'] then false
  -- Everything else must be escaped.
  else true

/-- The first loop of `unescape`: count the `%` and check that they are well formed. -/
def unescapeCheck (mode : encoding) : List Char → Except Error Unit
  | [] => .ok ()
  | c :: s =>
    if c = '%' then
      match s with
      | a :: b :: t =>
        if !ishex a || !ishex b then .error (.EscapeError ['%', a, b])
        else if mode = .encodeHost && decide (unhex a < 8) && ['%', a, b] ≠ ['%', '2', '5'] then
          .error (.EscapeError ['%', a, b])
        else if mode = .encodeZone && ['%', a, b] ≠ ['%', '2', '5'] &&
            decide (unhex a * 16 + unhex b ≠ (' ').toNat) &&
            shouldEscape (Char.ofNat (unhex a * 16 + unhex b)) .encodeHost then
          .error (.EscapeError ['%', a, b])
        else unescapeCheck mode t
      | _ => .error (.EscapeError (c :: s))
    else if c = '+' then unescapeCheck mode s
    else if (mode = .encodeHost || mode = .encodeZone) && decide (c.toNat < 128) &&
        shouldEscape c .encodeHost then
      .error (.InvalidHostError [c])
    else unescapeCheck mode s

/-- The second loop of `unescape`: write the decoded bytes. -/
def unescapeWrite (mode : encoding) : List Char → List Char
  | [] => []
  | c :: s =>
    if c = '%' then
      match s with
      | a :: b :: t => Char.ofNat (unhex a * 16 + unhex b) :: unescapeWrite mode t
      | _ => c :: s
    else if c = '+' then
      (if mode = .encodeQueryComponent then ' ' else '+') :: unescapeWrite mode s
    else c :: unescapeWrite mode s

/-- Embeds `func unescape(s string, mode encoding) (string, error)` -/
def unescape (s : List Char) (mode : encoding) : Except Error (List Char) :=
  match unescapeCheck mode s with
  | .error e => .error e
  | .ok () => .ok (unescapeWrite mode s)

/-- Embeds `func validOptionalPort(port string) bool` -/
def validOptionalPort (port : List Char) : Bool :=
  match port with
  | [] => true
  | c :: rest => c = ':' && rest.all (fun b => inRange '0' '9' b)

/-- Embeds `func validUserinfo(s string) bool` -/
def validUserinfo (s : List Char) : Bool :=
  s.all fun r =>
    inRange 'A' 'Z' r || inRange 'a' 'z' r || inRange '0' '9' r ||
      r ∈ ['-', '.', '_', ':', '~', '!', '$', '&', '\'', '(', ')', '*', '+', ',', ';', '=', '%', '@']

/-- Embeds `func getScheme(rawURL string) (scheme, path string, err error)`; `whole` is
`rawURL` and `i` the index the loop has reached. -/
def getSchemeLoop (whole : List Char) : Nat → List Char → Except Error (List Char × List Char)
  | _, [] => .ok ([], whole)
  | i, c :: cs =>
    if inRange 'a' 'z' c || inRange 'A' 'Z' c then getSchemeLoop whole (i + 1) cs
    else if inRange '0' '9' c || c = '+' || c = '-' || c = '.' then
      if i = 0 then .ok ([], whole) else getSchemeLoop whole (i + 1) cs
    else if c = ':' then
      if i = 0 then .error .missingProtocolScheme else .ok (whole.take i, cs)
    else
      -- we have encountered an invalid character, so there is no valid scheme
      .ok ([], whole)

/-- Embeds `func getScheme(rawURL string) (scheme, path string, err error)` -/
def getScheme (rawURL : List Char) : Except Error (List Char × List Char) :=
  getSchemeLoop rawURL 0 rawURL

/-- Embeds `type Userinfo struct`: user name and, when set, password. -/
structure Userinfo where
  username : List Char
  password : Option (List Char)
deriving DecidableEq, Repr

/-- Embeds `type URL struct`, without the fields that only record the original
encoding (`RawPath`, `RawFragment`, `OmitHost`). -/
structure URL where
  Scheme : List Char := []
  Opaque : List Char := []
  User : Option Userinfo := none
  Host : List Char := []
  Path : List Char := []
  ForceQuery : Bool := false
  RawQuery : List Char := []
  Fragment : List Char := []
deriving DecidableEq, Repr

/-- Embeds `func parseHost(host string) (string, error)` as it stands in the Go
releases that do not yet validate an IP-literal. Later releases
also reject a bracketed host that is not an IPv6 address and a host with more
than one colon outside brackets; on the addresses evaluated below the two agree. -/
def parseHost (host : List Char) : Except Error (List Char) :=
  if strings.startsWith host ['['] then
    -- Parse an IP-Literal in RFC 3986 and RFC 6874.
    match strings.LastIndexByte host ']' with
    | none => .error .missingBracket
    | some i =>
      let colonPort := host.drop (i + 1)
      if !validOptionalPort colonPort then .error (.invalidPort colonPort)
      else
        match strings.Index (host.take i) ['%', '2', '5'] with
        | some zone => do
          let host1 ← unescape (host.take zone) .encodeHost
          let host2 ← unescape ((host.take i).drop zone) .encodeZone
          let host3 ← unescape (host.drop i) .encodeHost
          pure (host1 ++ host2 ++ host3)
        | none => unescape host .encodeHost
  else
    match strings.LastIndexByte host ':' with
    | some i =>
      let colonPort := host.drop i
      if !validOptionalPort colonPort then .error (.invalidPort colonPort)
      else unescape host .encodeHost
    | none => unescape host .encodeHost

/-- Embeds `func parseAuthority(authority string) (user *Userinfo, host string, err error)` -/
def parseAuthority (authority : List Char) : Except Error (Option Userinfo × List Char) :=
  match strings.LastIndexByte authority '@' with
  | none => do
    let host ← parseHost authority
    pure (none, host)
  | some i => do
    let host ← parseHost (authority.drop (i + 1))
    let userinfo := authority.take i
    if !validUserinfo userinfo then .error .invalidUserinfo
    else if !userinfo.contains ':' then do
      let userinfo ← unescape userinfo .encodeUserPassword
      pure (some { username := userinfo, password := none }, host)
    else do
      let (username, password, _) := strings.Cut userinfo ':'
      let username ← unescape username .encodeUserPassword
      let password ← unescape password .encodeUserPassword
      pure (some { username := username, password := some password }, host)

/-- Embeds `func stringContainsCTLByte(s string) bool` -/
def stringContainsCTLByte (s : List Char) : Bool :=
  s.any fun b => decide (b.toNat < (' ').toNat) || decide (b.toNat = 127)

/-- Embeds `func parse(rawURL string, viaRequest bool) (*URL, error)` at `viaRequest = false`. -/
def parse (rawURL : List Char) : Except Error URL :=
  if stringContainsCTLByte rawURL then .error .invalidControlCharacter
  else if rawURL = ['*'] then .ok { Path := ['*'] }
  else do
    -- Split off possible leading "http:", "mailto:", etc.
    let (scheme, rest) ← getScheme rawURL
    let scheme := scheme.map Char.toLower
    let (rest, forceQuery, rawQuery) :=
      if strings.endsWith rest ['?'] && strings.Count rest '?' = 1 then
        (rest.take (rest.length - 1), true, [])
      else
        let (before, after, _) := strings.Cut rest '?'
        (before, false, after)
    let url : URL := { Scheme := scheme, ForceQuery := forceQuery, RawQuery := rawQuery }
    if !strings.startsWith rest ['/'] && scheme ≠ [] then
      -- We consider rootless paths per RFC 3986 as opaque.
      .ok { url with Opaque := rest }
    else if !strings.startsWith rest ['/'] && ((strings.Cut rest '/').1).contains ':' then
      -- First path segment has colon. Not allowed in relative URL.
      .error .firstPathSegmentColon
    else do
      let (url, rest) ←
        if (scheme ≠ [] || !strings.startsWith rest ['/', '/', '/']) &&
            strings.startsWith rest ['/', '/'] then do
          let authority := rest.drop 2
          let (authority, rest) :=
            match strings.IndexByte authority '/' with
            | some i => (authority.take i, authority.drop i)
            | none => (authority, [])
          let (user, host) ← parseAuthority authority
          pure ({ url with User := user, Host := host }, rest)
        else pure (url, rest)
      -- Set Path
      let path ← unescape rest .encodePath
      pure { url with Path := path }

/-- Embeds `func Parse(rawURL string) (*URL, error)` -/
def Parse (rawURL : String) : Except Error URL :=
  -- Cut off #frag
  let (u, frag, _) := strings.Cut rawURL.toList '#'
  match parse u with
  | .error e => .error e
  | .ok url =>
    if frag = [] then .ok url
    else
      match unescape frag .encodeFragment with
      | .error e => .error e
      | .ok f => .ok { url with Fragment := f }

/-- Embeds `func splitHostPort(hostPort string) (host, port string)` -/
def splitHostPort (hostPort : List Char) : List Char × List Char :=
  let (host, port) :=
    match strings.LastIndexByte hostPort ':' with
    | some colon =>
      if validOptionalPort (hostPort.drop colon) then
        (hostPort.take colon, hostPort.drop (colon + 1))
      else (hostPort, [])
    | none => (hostPort, [])
  if strings.startsWith host ['['] && strings.endsWith host [']'] then
    ((host.take (host.length - 1)).drop 1, port)
  else (host, port)

/-- Embeds `func (u *URL) Hostname() string` -/
def URL.Hostname (u : URL) : String :=
  String.mk (splitHostPort u.Host).1

/-- Embeds `func (u *URL) Port() string` -/
def URL.Port (u : URL) : String :=
  String.mk (splitHostPort u.Host).2

end url

namespace net

/-- The errors of `net.SplitHostPort`. -/
inductive AddrError where
  | missingPort
  | tooManyColons
  | missingBracket
  | unexpectedOpen
  | unexpectedClose
deriving DecidableEq, Repr

/-- Embeds `func (e *AddrError) Error() string` without the address in front. -/
def AddrError.Error : AddrError → String
  | .missingPort => "missing port in address"
  | .tooManyColons => "too many colons in address"
  | .missingBracket => "missing ']' in address"
  | .unexpectedOpen => "unexpected '[' in address"
  | .unexpectedClose => "unexpected ']' in address"

/-- Embeds `func SplitHostPort(hostport string) (host, port string, err error)` -/
def SplitHostPort (hostport : String) : Except AddrError (String × String) :=
  let s := hostport.toList
  -- The port starts after the last colon.
  match strings.LastIndexByte s ':' with
  | none => .error .missingPort
  | some i =>
    let bracketed : Except AddrError (List Char × Nat × Nat) :=
      if strings.startsWith s ['['] then
        -- Expect the first ']' just before the last ':'.
        match strings.IndexByte s ']' with
        | none => .error .missingBracket
        | some e =>
          if e + 1 = s.length then .error .missingPort
          else if e + 1 = i then .ok ((s.take e).drop 1, 1, e + 1)
          else if (s.drop (e + 1)).head? = some ':' then .error .tooManyColons
          else .error .missingPort
      else
        let host := s.take i
        if (strings.IndexByte host ':').isSome then .error .tooManyColons
        else .ok (host, 0, 0)
    match bracketed with
    | .error e => .error e
    | .ok (host, j, k) =>
      if (strings.IndexByte (s.drop j) '[').isSome then .error .unexpectedOpen
      else if (strings.IndexByte (s.drop k) ']').isSome then .error .unexpectedClose
      else .ok (String.mk host, String.mk (s.drop (i + 1)))

end net

namespace DockerAgent

/-! ## Data model -/

/-- The parts of a `fasthttp.Request` a proxied call carries. -/
structure Request where
  method : String
  requestURI : String
  header : List (String × String)
  body : String
deriving DecidableEq, Repr

/-- The parts of a `fasthttp.Response`. `statusCode` is the header's status
code, `header` the header's key/value list (`Header.h`: every header but
`Content-Length`, which fasthttp keeps in a field of its own), `contentLength`
that field (`Header.contentLength`: the length, `-1` for chunked, `-2` for
identity), `body` the body bytes and `SkipBody` the flag of that name. The
client `dockerSocktClient` does not set `StreamResponseBody`, so no body stream
is attached to a response. -/
structure Response where
  statusCode : Nat
  header : List (String × String)
  contentLength : Int
  body : String
  SkipBody : Bool
deriving DecidableEq, Repr

/-- The request context handed to a fasthttp handler: `ctx.Request` and `ctx.Response`. -/
structure RequestCtx where
  request : Request
  response : Response
deriving DecidableEq, Repr

/-- The `fasthttp.HostClient`: its address and its pool of idle connections
(each connection is named by a number). -/
structure HostClient where
  Addr : String
  conns : List Nat
deriving DecidableEq, Repr

/-- Every effect of the file on the outside, one constructor per call site
(or per library call that a claim has to tell apart). -/
inductive Event where
  /-- Embeds `log.Printf("---Request:---\n%v\n", req)`, with the request as printed -/
  | logRequest (req : Request)
  /-- Embeds `dockerSocktClient.Do(req, resp)` -/
  | clientDo (req : Request)
  /-- Embeds `ctx.Logger().Printf("Error when proxying the request: %s", err)` -/
  | loggerPrintf (msg : String)
  /-- Embeds `dockerSocktClient.CloseIdleConnections()` -/
  | closeIdleConnections
  /-- Embeds `resp.SetStatusCode(code)` -/
  | setStatusCode (code : Nat)
  /-- Embeds `resp.SetBodyString(body)` -/
  | setBodyString (body : String)
  /-- Embeds `log.Printf("---Response:---\n%v\n", resp)`, with the response as printed -/
  | logResponse (resp : Response)
  /-- Embeds `log.Print(msg)` -/
  | logPrint (msg : String)
  /-- Embeds `log.Fatalf(...)`: the line is logged and the process exits -/
  | logFatalf (msg : String)
  /-- Embeds `panic(err)` with the error of `url.Parse` -/
  | panicked (err : url.Error)
  /-- Embeds `fasthttp.ListenAndServe(addr, handler)`: serve over a plain TCP listener -/
  | listenAndServe (addr : String)
  /-- Embeds `fasthttp.ListenAndServeTLS(addr, certFile, keyFile, handler)` and its
  embedded-certificate variant: serve over a TLS listener -/
  | listenAndServeTLS (addr : String) (cert : String) (key : String)
  /-- Embeds `tls.LoadX509KeyPair(pem, key)` -/
  | loadX509KeyPair (pem : String) (key : String)
deriving DecidableEq, Repr

/-- The process-wide state the handler works on: the global `dockerSocktClient`
and the events so far, oldest first. -/
structure World where
  client : HostClient
  trace : List Event
deriving DecidableEq, Repr

/-- What one call of `HostClient.Do(req, resp)` leaves behind: the client (its
pool), the request and the response it was given, and the error it returns
(`none` for `nil`, otherwise the text of `err.Error()`). -/
structure DoResult where
  client : HostClient
  req : Request
  resp : Response
  err : Option String
deriving DecidableEq, Repr

/-- The backend as seen through `HostClient.Do`: any function of the client,
the request and the response container. -/
abbrev Backend := HostClient → Request → Response → DoResult

/-! ## Library calls on the response and the client -/

/-- Embeds `fasthttp.StatusOK` -/
def StatusOK : Nat := 200

/-- Embeds `fasthttp.StatusNoContent` -/
def StatusNoContent : Nat := 204

/-- Embeds `fasthttp.StatusNotModified` -/
def StatusNotModified : Nat := 304

/-- Embeds `fasthttp.StatusForbidden` -/
def StatusForbidden : Nat := 403

/-- Embeds `resp.SetStatusCode(code)` -/
def Response.SetStatusCode (resp : Response) (code : Nat) : Response :=
  { resp with statusCode := code }

/-- Embeds `resp.SetBodyString(body)` -/
def Response.SetBodyString (resp : Response) (body : String) : Response :=
  { resp with body := body }

/-- Embeds `func (h *ResponseHeader) mustSkipContentLength() bool`: all 1xx, 204 and
304 responses must not include a message body. -/
def mustSkipContentLength (statusCode : Nat) : Bool :=
  -- Fast path.
  if statusCode < 100 || statusCode = StatusOK then false
  -- Slow path.
  else statusCode = StatusNotModified || statusCode = StatusNoContent || statusCode < 200

/-- Embeds `func (resp *Response) mustSkipBody() bool` -/
def Response.mustSkipBody (resp : Response) : Bool :=
  resp.SkipBody || mustSkipContentLength resp.statusCode

/-- Embeds `func (h *ResponseHeader) SetContentLength(contentLength int)` for a
length that is not negative (the only kind `Write` passes): the length is
stored and every `Transfer-Encoding` entry is deleted from the header list. -/
def Response.SetContentLength (resp : Response) (contentLength : Nat) : Response :=
  if mustSkipContentLength resp.statusCode then resp
  else
    { resp with
      contentLength := contentLength
      header := resp.header.filter fun kv => decide (kv.1 ≠ "Transfer-Encoding") }

/-- Embeds `func (resp *Response) Write(w *bufio.Writer) error`, as the state it leaves
the response in: before the header is written the content length is set from
the body. -/
def Response.Write (resp : Response) : Response :=
  let sendBody := !resp.mustSkipBody
  let bodyLen := resp.body.utf8ByteSize
  if sendBody || decide (0 < bodyLen) then resp.SetContentLength bodyLen else resp

/-- Embeds `func (resp *Response) String() string`, which `%v` calls on the
`*fasthttp.Response` given to `log.Printf`: it writes the response into a
buffer with `Write`, on the response itself. The value is the response as it
is afterwards (and as the log shows it). -/
def Response.String (resp : Response) : Response :=
  resp.Write

/-- Embeds `c.CloseIdleConnections()`: every pooled idle connection is closed and the
pool is emptied. -/
def HostClient.CloseIdleConnections (c : HostClient) : HostClient :=
  { c with conns := [] }

/-- Embeds `var dockerSocketFile = "/var/run/docker.sock"` -/
def dockerSocketFile : String := "/var/run/docker.sock"

/-- Embeds `var dockerSocktClient = &fasthttp.HostClient{Addr: dockerSocketFile, ...}`:
the client at program start, with an empty pool. -/
def dockerSocktClient : HostClient :=
  { Addr := dockerSocketFile, conns := [] }

/-- Append one event to the trace. -/
def World.emit (w : World) (e : Event) : World :=
  { w with trace := w.trace ++ [e] }

/-! ## The handler -/

/-- Embeds `func dockerReverseProxyHandler(ctx *fasthttp.RequestCtx)`, lines 26-41.

`Do` is the backend call. `requestString` is what `req.String()` does to the
request: `%v` calls it on the `*fasthttp.Request` given to `log.Printf` at
line 28, and fasthttp writes the request out with `Request.Write`, which may
set header fields (host, request URI, content length) on the request itself;
the value is the request as it is afterwards. The response is printed the same
way at line 40, through `Response.String`. -/
def dockerReverseProxyHandler (Do : Backend) (requestString : Request → Request)
    (w : World) (ctx : RequestCtx) : World × RequestCtx :=
  let req := requestString ctx.request
  let w := w.emit (.logRequest req)
  let resp := ctx.response
  -- do request
  let r := Do w.client req resp
  let w : World := { client := r.client, trace := w.trace ++ [.clientDo req] }
  match r.err with
  | some err =>
    let w := w.emit (.loggerPrintf ("Error when proxying the request: " ++ err))
    let w : World :=
      { client := w.client.CloseIdleConnections, trace := w.trace ++ [.closeIdleConnections] }
    let resp := r.resp.SetStatusCode StatusForbidden
    let w := w.emit (.setStatusCode StatusForbidden)
    let resp := resp.SetBodyString err
    let w := w.emit (.setBodyString err)
    let resp := resp.String
    (w.emit (.logResponse resp), { request := r.req, response := resp })
  | none =>
    let resp := r.resp.String
    (w.emit (.logResponse resp), { request := r.req, response := resp })

/-! ## Startup -/

/-- The `tls.Certificate` that `tls.LoadX509KeyPair` returns: the certificate
chain and the private key it was built from. -/
structure Certificate where
  certificate : String
  privateKey : String
deriving DecidableEq, Repr

/-- What the startup code asks of its surroundings. `IsFileExist` is the
package's file test (defined in another file of the package), `Parse` is
`url.Parse`, `ListenAndServe` gives the error `fasthttp.ListenAndServe`
finally returns for an address (`none` for `nil`), `LoadX509KeyPair` is
`tls.LoadX509KeyPair`. -/
structure Env where
  IsFileExist : String → Bool
  Parse : String → Except url.Error url.URL
  ListenAndServe : String → Option String
  LoadX509KeyPair : String → String → Except String Certificate

/-- How a startup function ends: it returns, the process exits (`log.Fatalf`),
or it panics. -/
inductive Outcome where
  | returned
  | exited
  | panicked
deriving DecidableEq, Repr

/-- Embeds `func listenDockerAgent(dockerAgentAddr string)`, lines 43-47. -/
def listenDockerAgent (env : Env) (dockerAgentAddr : String) : List Event × Outcome :=
  match env.ListenAndServe dockerAgentAddr with
  | some err =>
    ([.listenAndServe dockerAgentAddr, .logFatalf ("Error in fasthttp server: " ++ err)], .exited)
  | none => ([.listenAndServe dockerAgentAddr], .returned)

/-- Embeds `func loadServerCertificates(pem string, key string) tls.Certificate`,
lines 49-56; `none` when the process exits in `log.Fatalf` (the `panic(err)`
behind it is never reached). -/
def loadServerCertificates (env : Env) (pem : String) (key : String) :
    List Event × Option Certificate :=
  match env.LoadX509KeyPair pem key with
  | .error err =>
    ([.loadX509KeyPair pem key, .logFatalf ("Error in LoadX509KeyPair: " ++ err)], none)
  | .ok cert => ([.loadX509KeyPair pem key], some cert)

/-- The text `listenDocker` logs for an `https` listen address. -/
def httpsWarning : String :=
  "Docker proxy does not support redirects https requests, use http instead."

/-- Embeds `func listenDocker(dockerAgentAddr string)`, lines 58-73. -/
def listenDocker (env : Env) (dockerAgentAddr : String) : List Event × Outcome :=
  if env.IsFileExist dockerSocketFile then
    match env.Parse dockerAgentAddr with
    | .error err => ([.panicked err], .panicked)
    | .ok addr =>
      let warn : List Event :=
        if String.mk addr.Scheme = "https" then [.logPrint httpsWarning] else []
      let dockerAgentAddr := addr.Hostname ++ ":" ++ addr.Port
      let served := listenDockerAgent env dockerAgentAddr
      (warn ++ served.1, served.2)
  else
    ([.logFatalf ("Docker socket file not exist: " ++ dockerSocketFile)], .exited)

/-- The surroundings with Go's own `url.Parse` and a given answer of the file
test. The listener answers as `net.Listen("tcp4", addr)` does for the syntax
of the address: when `net.SplitHostPort` rejects it the call fails with that
error, otherwise it serves until it is shut down and returns `nil`. The loader
reads the two files as they are. -/
def goEnv (socketExists : Bool) : Env where
  IsFileExist := fun _ => socketExists
  Parse := url.Parse
  ListenAndServe := fun addr =>
    match net.SplitHostPort addr with
    | .error e => some ("listen tcp4: address " ++ addr ++ ": " ++ e.Error)
    | .ok _ => none
  LoadX509KeyPair := fun pem key => .ok { certificate := pem, privateKey := key }

/-- From the claim's words, "splitting it at its host/port separator": a
`host:port` string is cut at its last colon (the port starts after the last
colon); `none` when there is no colon. -/
def splitAtSeparator (hostport : String) : Option (String × String) :=
  match strings.LastIndexByte hostport.toList ':' with
  | some i => some (String.mk (hostport.toList.take i), String.mk (hostport.toList.drop (i + 1)))
  | none => none

/-! ## Sample backends and requests -/

/-- A backend that cannot be reached: every call fails with the dial error and
leaves client, request and response as they were. -/
def unreachableBackend : Backend := fun c req resp =>
  { client := c, req := req, resp := resp,
    err := some "dial unix /var/run/docker.sock: connect: no such file or directory" }

/-- A backend that answers every request with `200`, one header, a content
length and a body, and keeps one idle connection in the pool. -/
def healthyBackend : Backend := fun c req _ =>
  { client := { c with conns := [7] }, req := req,
    resp := { statusCode := 200, header := [("Content-Type", "application/json")],
              contentLength := 2, body := "[]", SkipBody := false },
    err := none }

/-- A backend that answers every request with a chunked `200`: the header list
holds `Transfer-Encoding: chunked` and the content length field is `-1`. -/
def chunkedBackend : Backend := fun c req _ =>
  { client := { c with conns := [7] }, req := req,
    resp := { statusCode := 200,
              header := [("Content-Type", "application/json"), ("Transfer-Encoding", "chunked")],
              contentLength := -1, body := "[]", SkipBody := false },
    err := none }

/-- A backend that is down while its pool is non-empty and answers once the
pool has been emptied. -/
def recoveringBackend : Backend := fun c req resp =>
  if c.conns = [] then healthyBackend c req resp else unreachableBackend c req resp

/-- A backend that is down while its pool is non-empty and gives the chunked
answer once the pool has been emptied. -/
def recoveringChunkedBackend : Backend := fun c req resp =>
  if c.conns = [] then chunkedBackend c req resp else unreachableBackend c req resp

/-- A world with two idle connections in the pool and one earlier log line. -/
def sampleWorld : World :=
  { client := { Addr := dockerSocketFile, conns := [1, 2] }, trace := [.logPrint "started"] }

/-- A `GET /containers/json` in a fresh context. -/
def sampleCtx : RequestCtx :=
  { request := { method := "GET", requestURI := "/containers/json", header := [], body := "" },
    response := { statusCode := 200, header := [], contentLength := 0, body := "",
                  SkipBody := false } }

/-! ## The handler: what is left in the request context -/

/-- Setting the content length leaves the status code alone. -/
theorem Response.SetContentLength_statusCode (resp : Response) (n : Nat) :
    (resp.SetContentLength n).statusCode = resp.statusCode := by
  unfold Response.SetContentLength
  split <;> rfl

/-- Setting the content length leaves the body alone. -/
theorem Response.SetContentLength_body (resp : Response) (n : Nat) :
    (resp.SetContentLength n).body = resp.body := by
  unfold Response.SetContentLength
  split <;> rfl

/-- Printing a response leaves its status code alone. -/
theorem Response.String_statusCode (resp : Response) :
    resp.String.statusCode = resp.statusCode := by
  unfold Response.String Response.Write
  simp only
  split
  · exact Response.SetContentLength_statusCode _ _
  · rfl

/-- Printing a response leaves its body alone. -/
theorem Response.String_body (resp : Response) : resp.String.body = resp.body := by
  unfold Response.String Response.Write
  simp only
  split
  · exact Response.SetContentLength_body _ _
  · rfl

/-- Printing a response either leaves header list and content length as they
are, or stores the body length and deletes the `Transfer-Encoding` entries. -/
theorem Response.String_header (resp : Response) :
    (resp.String.header = resp.header ∧ resp.String.contentLength = resp.contentLength) ∨
    (resp.String.header = resp.header.filter (fun kv => decide (kv.1 ≠ "Transfer-Encoding")) ∧
      resp.String.contentLength = resp.body.utf8ByteSize) := by
  unfold Response.String Response.Write Response.SetContentLength
  simp only
  split
  · split
    · exact Or.inl ⟨rfl, rfl⟩
    · exact Or.inr ⟨rfl, rfl⟩
  · exact Or.inl ⟨rfl, rfl⟩

/-- The failure path of the handler, written out. -/
theorem handler_failure_eq (Do : Backend) (requestString : Request → Request) (w : World)
    (ctx : RequestCtx) (e : String)
    (h : (Do w.client (requestString ctx.request) ctx.response).err = some e) :
    dockerReverseProxyHandler Do requestString w ctx =
      ({ client :=
           (Do w.client (requestString ctx.request) ctx.response).client.CloseIdleConnections,
         trace := w.trace ++
           [.logRequest (requestString ctx.request), .clientDo (requestString ctx.request),
            .loggerPrintf ("Error when proxying the request: " ++ e),
            .closeIdleConnections, .setStatusCode StatusForbidden, .setBodyString e,
            .logResponse
              (((Do w.client (requestString ctx.request) ctx.response).resp.SetStatusCode
                StatusForbidden).SetBodyString e).String] },
       { request := (Do w.client (requestString ctx.request) ctx.response).req,
         response :=
           (((Do w.client (requestString ctx.request) ctx.response).resp.SetStatusCode
             StatusForbidden).SetBodyString e).String }) := by
  simp [dockerReverseProxyHandler, World.emit, h]

/-- The success path of the handler, written out. -/
theorem handler_success_eq (Do : Backend) (requestString : Request → Request) (w : World)
    (ctx : RequestCtx)
    (h : (Do w.client (requestString ctx.request) ctx.response).err = none) :
    dockerReverseProxyHandler Do requestString w ctx =
      ({ client := (Do w.client (requestString ctx.request) ctx.response).client,
         trace := w.trace ++
           [.logRequest (requestString ctx.request), .clientDo (requestString ctx.request),
            .logResponse (Do w.client (requestString ctx.request) ctx.response).resp.String] },
       { request := (Do w.client (requestString ctx.request) ctx.response).req,
         response := (Do w.client (requestString ctx.request) ctx.response).resp.String }) := by
  simp [dockerReverseProxyHandler, World.emit, h]

/-- C1: when the backend call `Do` fails with error text `e`, the response the
handler leaves in the request context has status code 403 and body `e`; so
the body is non-empty whenever `e` is. -/
theorem failure_gives_forbidden_with_error_body (Do : Backend)
    (requestString : Request → Request) (w : World) (ctx : RequestCtx) (e : String)
    (h : (Do w.client (requestString ctx.request) ctx.response).err = some e) :
    (dockerReverseProxyHandler Do requestString w ctx).2.response.statusCode = 403 ∧
      (dockerReverseProxyHandler Do requestString w ctx).2.response.body = e ∧
      (e ≠ "" → (dockerReverseProxyHandler Do requestString w ctx).2.response.body ≠ "") := by
  rw [handler_failure_eq Do requestString w ctx e h]
  simp only [Response.String_statusCode, Response.String_body]
  exact ⟨rfl, rfl, fun hne => hne⟩

/-- C1 at the unreachable backend: the dial error comes back as a 403 with that text. -/
theorem failure_gives_forbidden_with_error_body_witness :
    (unreachableBackend sampleWorld.client (id sampleCtx.request) sampleCtx.response).err =
        some "dial unix /var/run/docker.sock: connect: no such file or directory" ∧
      (dockerReverseProxyHandler unreachableBackend id sampleWorld sampleCtx).2.response.statusCode
        = 403 ∧
      (dockerReverseProxyHandler unreachableBackend id sampleWorld sampleCtx).2.response.body =
        "dial unix /var/run/docker.sock: connect: no such file or directory" ∧
      (dockerReverseProxyHandler unreachableBackend id sampleWorld sampleCtx).2.response.body ≠
        "" :=
  ⟨rfl,
   (failure_gives_forbidden_with_error_body unreachableBackend id sampleWorld sampleCtx _ rfl).1,
   (failure_gives_forbidden_with_error_body unreachableBackend id sampleWorld sampleCtx _
      rfl).2.1,
   (failure_gives_forbidden_with_error_body unreachableBackend id sampleWorld sampleCtx _
      rfl).2.2 (by decide)⟩

/-- C2 fails as stated: the chunked backend succeeds, and the response the
handler leaves differs from the one the backend call populated. Printing the
response for the log has deleted `Transfer-Encoding: chunked` from the header
list and stored the body length 2 as content length. -/
theorem chunked_response_headers_rewritten_by_log :
    (chunkedBackend sampleWorld.client (id sampleCtx.request) sampleCtx.response).err = none ∧
      (dockerReverseProxyHandler chunkedBackend id sampleWorld sampleCtx).2.response ≠
        (chunkedBackend sampleWorld.client (id sampleCtx.request) sampleCtx.response).resp ∧
      (chunkedBackend sampleWorld.client (id sampleCtx.request) sampleCtx.response).resp.header =
        [("Content-Type", "application/json"), ("Transfer-Encoding", "chunked")] ∧
      (chunkedBackend sampleWorld.client (id sampleCtx.request)
        sampleCtx.response).resp.contentLength = -1 ∧
      (dockerReverseProxyHandler chunkedBackend id sampleWorld sampleCtx).2.response.header =
        [("Content-Type", "application/json")] ∧
      (dockerReverseProxyHandler chunkedBackend id sampleWorld sampleCtx).2.response.contentLength
        = 2 := by
  refine ⟨rfl, ?_, rfl, rfl, rfl, rfl⟩
  intro hc
  have h2 := congrArg Response.contentLength hc
  have h3 : (dockerReverseProxyHandler chunkedBackend id sampleWorld
      sampleCtx).2.response.contentLength = 2 := rfl
  have h4 : (chunkedBackend sampleWorld.client (id sampleCtx.request)
      sampleCtx.response).resp.contentLength = -1 := rfl
  rw [h3, h4] at h2
  exact absurd h2 (by decide)

/-- C2 (as amended): when the backend call `Do` succeeds, the response the
handler leaves in the request context is the one `Do` populated after it has
been printed for the log: status code, body and `SkipBody` are those of `Do`;
header list and content length are either those of `Do`, or the header list of
`Do` without its `Transfer-Encoding` entries together with the byte length of
the body as content length. In both cases every header other than
`Transfer-Encoding` is kept. -/
theorem success_passes_backend_response_through (Do : Backend)
    (requestString : Request → Request) (w : World) (ctx : RequestCtx)
    (h : (Do w.client (requestString ctx.request) ctx.response).err = none) :
    (dockerReverseProxyHandler Do requestString w ctx).2.response =
        (Do w.client (requestString ctx.request) ctx.response).resp.String ∧
      (dockerReverseProxyHandler Do requestString w ctx).2.response.statusCode =
        (Do w.client (requestString ctx.request) ctx.response).resp.statusCode ∧
      (dockerReverseProxyHandler Do requestString w ctx).2.response.body =
        (Do w.client (requestString ctx.request) ctx.response).resp.body ∧
      (((dockerReverseProxyHandler Do requestString w ctx).2.response.header =
            (Do w.client (requestString ctx.request) ctx.response).resp.header ∧
          (dockerReverseProxyHandler Do requestString w ctx).2.response.contentLength =
            (Do w.client (requestString ctx.request) ctx.response).resp.contentLength) ∨
        ((dockerReverseProxyHandler Do requestString w ctx).2.response.header =
            (Do w.client (requestString ctx.request) ctx.response).resp.header.filter
              (fun kv => decide (kv.1 ≠ "Transfer-Encoding")) ∧
          (dockerReverseProxyHandler Do requestString w ctx).2.response.contentLength =
            (Do w.client (requestString ctx.request)
              ctx.response).resp.body.utf8ByteSize)) ∧
      (dockerReverseProxyHandler Do requestString w ctx).2.response.header.filter
          (fun kv => decide (kv.1 ≠ "Transfer-Encoding")) =
        (Do w.client (requestString ctx.request) ctx.response).resp.header.filter
          (fun kv => decide (kv.1 ≠ "Transfer-Encoding")) := by
  rw [handler_success_eq Do requestString w ctx h]
  refine ⟨rfl, Response.String_statusCode _, Response.String_body _,
    Response.String_header _, ?_⟩
  rcases Response.String_header (Do w.client (requestString ctx.request) ctx.response).resp
    with ⟨hh, _⟩ | ⟨hh, _⟩
  · simp only [hh]
  · simp only [hh, List.filter_filter, Bool.and_self]

/-- C2 (as amended) at the healthy backend: its 200 response with content length
2 is what the context holds. -/
theorem success_passes_backend_response_through_witness :
    (healthyBackend sampleWorld.client (id sampleCtx.request) sampleCtx.response).err = none ∧
      (dockerReverseProxyHandler healthyBackend id sampleWorld sampleCtx).2.response =
        { statusCode := 200, header := [("Content-Type", "application/json")],
          contentLength := 2, body := "[]", SkipBody := false } :=
  ⟨rfl,
   (success_passes_backend_response_through healthyBackend id sampleWorld sampleCtx
      rfl).1.trans rfl⟩

/-- C3: the handler calls `CloseIdleConnections` exactly when the backend call
`Do` failed. On failure the events it adds are, in order: the request log, the
call, the error log, `CloseIdleConnections`, then `SetStatusCode(403)` and
`SetBodyString`, then the response log, and the pool is left empty. On success
no `CloseIdleConnections` is among the added events and the client is the one
`Do` left. -/
theorem close_idle_connections_exactly_on_failure (Do : Backend)
    (requestString : Request → Request) (w : World) (ctx : RequestCtx) :
    (Event.closeIdleConnections ∈
        (dockerReverseProxyHandler Do requestString w ctx).1.trace.drop w.trace.length ↔
      (Do w.client (requestString ctx.request) ctx.response).err ≠ none) ∧
    (∀ e, (Do w.client (requestString ctx.request) ctx.response).err = some e →
      (dockerReverseProxyHandler Do requestString w ctx).1.trace.drop w.trace.length =
        [.logRequest (requestString ctx.request), .clientDo (requestString ctx.request),
         .loggerPrintf ("Error when proxying the request: " ++ e),
         .closeIdleConnections, .setStatusCode 403, .setBodyString e,
         .logResponse (dockerReverseProxyHandler Do requestString w ctx).2.response] ∧
      (dockerReverseProxyHandler Do requestString w ctx).1.client.conns = []) ∧
    ((Do w.client (requestString ctx.request) ctx.response).err = none →
      (dockerReverseProxyHandler Do requestString w ctx).1.trace.drop w.trace.length =
        [.logRequest (requestString ctx.request), .clientDo (requestString ctx.request),
         .logResponse (dockerReverseProxyHandler Do requestString w ctx).2.response] ∧
      (dockerReverseProxyHandler Do requestString w ctx).1.client =
        (Do w.client (requestString ctx.request) ctx.response).client) := by
  cases h : (Do w.client (requestString ctx.request) ctx.response).err with
  | none =>
    rw [handler_success_eq Do requestString w ctx h]
    simp
  | some e =>
    rw [handler_failure_eq Do requestString w ctx e h]
    simp [StatusForbidden, HostClient.CloseIdleConnections]

/-- C7: on both paths the events the handler adds begin with the request log
followed by the backend call and end with the response log; the response log
carries the response left in the context (on failure the 403 with the error
text, on success the status code and body of the backend), and no further
request log, backend call or response log lies between. -/
theorem request_logged_before_and_response_after_call (Do : Backend)
    (requestString : Request → Request) (w : World) (ctx : RequestCtx) :
    ∃ mid : List Event,
      (dockerReverseProxyHandler Do requestString w ctx).1.trace =
        w.trace ++
            [.logRequest (requestString ctx.request), .clientDo (requestString ctx.request)] ++
            mid ++
          [.logResponse (dockerReverseProxyHandler Do requestString w ctx).2.response] ∧
      (∀ ev ∈ mid, (∀ r, ev ≠ .logRequest r) ∧ (∀ r, ev ≠ .clientDo r) ∧
        ∀ r, ev ≠ .logResponse r) ∧
      (∀ e, (Do w.client (requestString ctx.request) ctx.response).err = some e →
        (dockerReverseProxyHandler Do requestString w ctx).2.response.statusCode = 403 ∧
        (dockerReverseProxyHandler Do requestString w ctx).2.response.body = e) ∧
      ((Do w.client (requestString ctx.request) ctx.response).err = none →
        (dockerReverseProxyHandler Do requestString w ctx).2.response.statusCode =
          (Do w.client (requestString ctx.request) ctx.response).resp.statusCode ∧
        (dockerReverseProxyHandler Do requestString w ctx).2.response.body =
          (Do w.client (requestString ctx.request) ctx.response).resp.body) := by
  cases h : (Do w.client (requestString ctx.request) ctx.response).err with
  | none =>
    refine ⟨[], ?_, ?_, ?_, ?_⟩
    · rw [handler_success_eq Do requestString w ctx h]; simp
    · intro ev hev; cases hev
    · intro e he; cases he
    · intro _
      rw [handler_success_eq Do requestString w ctx h]
      exact ⟨Response.String_statusCode _, Response.String_body _⟩
  | some e =>
    refine ⟨[.loggerPrintf ("Error when proxying the request: " ++ e),
      .closeIdleConnections, .setStatusCode StatusForbidden, .setBodyString e], ?_, ?_, ?_, ?_⟩
    · rw [handler_failure_eq Do requestString w ctx e h]; simp
    · intro ev hev
      simp only [List.mem_cons, List.mem_singleton, List.not_mem_nil, or_false] at hev
      rcases hev with rfl | rfl | rfl | rfl <;>
        exact ⟨fun _ hc => (by cases hc), fun _ hc => (by cases hc), fun _ hc => (by cases hc)⟩
    · intro e2 he2
      cases he2
      rw [handler_failure_eq Do requestString w ctx e h]
      simp only [Response.String_statusCode, Response.String_body]
      exact ⟨rfl, rfl⟩
    · intro hc; cases hc

/-- C8 fails as stated: the backend is down for the first request and answers
the second with a chunked 200, and the second response the handler leaves is
not the response the backend call populated: the log has rewritten its
framing headers. -/
theorem second_response_headers_rewritten_after_failure :
    (recoveringChunkedBackend sampleWorld.client (id sampleCtx.request)
        sampleCtx.response).err =
      some "dial unix /var/run/docker.sock: connect: no such file or directory" ∧
    (recoveringChunkedBackend
        (dockerReverseProxyHandler recoveringChunkedBackend id sampleWorld sampleCtx).1.client
        (id sampleCtx.request) sampleCtx.response).err = none ∧
    (dockerReverseProxyHandler recoveringChunkedBackend id
        (dockerReverseProxyHandler recoveringChunkedBackend id sampleWorld sampleCtx).1
        sampleCtx).2.response ≠
      (recoveringChunkedBackend
        (dockerReverseProxyHandler recoveringChunkedBackend id sampleWorld sampleCtx).1.client
        (id sampleCtx.request) sampleCtx.response).resp ∧
    (dockerReverseProxyHandler recoveringChunkedBackend id
        (dockerReverseProxyHandler recoveringChunkedBackend id sampleWorld sampleCtx).1
        sampleCtx).2.response =
      { statusCode := 200, header := [("Content-Type", "application/json")],
        contentLength := 2, body := "[]", SkipBody := false } ∧
    (recoveringChunkedBackend
        (dockerReverseProxyHandler recoveringChunkedBackend id sampleWorld sampleCtx).1.client
        (id sampleCtx.request) sampleCtx.response).resp =
      { statusCode := 200,
        header := [("Content-Type", "application/json"), ("Transfer-Encoding", "chunked")],
        contentLength := -1, body := "[]", SkipBody := false } := by
  have hgot : (dockerReverseProxyHandler recoveringChunkedBackend id
      (dockerReverseProxyHandler recoveringChunkedBackend id sampleWorld sampleCtx).1
      sampleCtx).2.response =
      { statusCode := 200, header := [("Content-Type", "application/json")],
        contentLength := 2, body := "[]", SkipBody := false } := rfl
  have hdo : (recoveringChunkedBackend
      (dockerReverseProxyHandler recoveringChunkedBackend id sampleWorld sampleCtx).1.client
      (id sampleCtx.request) sampleCtx.response).resp =
      { statusCode := 200,
        header := [("Content-Type", "application/json"), ("Transfer-Encoding", "chunked")],
        contentLength := -1, body := "[]", SkipBody := false } := rfl
  refine ⟨rfl, rfl, ?_, hgot, hdo⟩
  rw [hgot, hdo]
  decide

/-- C8 (as amended): two requests are handled one after the other, the backend
call fails for the first (result `r₁`) and succeeds for the second (result
`r₂`). The failure leaves the client as the first call left it with the idle
pool emptied and nothing else changed, and that client is the one the second
call is made on. The context the second request ends with is made of `r₂`
alone: the request `r₂` left and the response `r₂` left as printed for the log,
so with the status code and body of `r₂` and every header of `r₂` other than
`Transfer-Encoding`. The log written so far has no influence on it, and the
second call leaves the client as `r₂` has it. -/
theorem second_request_unaffected_by_earlier_failure (Do : Backend)
    (requestString : Request → Request) (w : World) (ctx₁ ctx₂ : RequestCtx) (e : String)
    (r₁ r₂ : DoResult)
    (hr₁ : Do w.client (requestString ctx₁.request) ctx₁.response = r₁)
    (h₁ : r₁.err = some e)
    (hr₂ : Do { Addr := r₁.client.Addr, conns := [] } (requestString ctx₂.request) ctx₂.response = r₂)
    (h₂ : r₂.err = none) :
    (dockerReverseProxyHandler Do requestString w ctx₁).1.client =
        { Addr := r₁.client.Addr, conns := [] } ∧
    (dockerReverseProxyHandler Do requestString
        (dockerReverseProxyHandler Do requestString w ctx₁).1 ctx₂).2 =
      { request := r₂.req, response := r₂.resp.String } ∧
    ((dockerReverseProxyHandler Do requestString
          (dockerReverseProxyHandler Do requestString w ctx₁).1 ctx₂).2.response.statusCode =
        r₂.resp.statusCode ∧
      (dockerReverseProxyHandler Do requestString
          (dockerReverseProxyHandler Do requestString w ctx₁).1 ctx₂).2.response.body =
        r₂.resp.body ∧
      (dockerReverseProxyHandler Do requestString
          (dockerReverseProxyHandler Do requestString w ctx₁).1 ctx₂).2.response.header.filter
          (fun kv => decide (kv.1 ≠ "Transfer-Encoding")) =
        r₂.resp.header.filter (fun kv => decide (kv.1 ≠ "Transfer-Encoding"))) ∧
    (∀ t : List Event,
      (dockerReverseProxyHandler Do requestString
          { client := (dockerReverseProxyHandler Do requestString w ctx₁).1.client, trace := t }
          ctx₂).2 =
        { request := r₂.req, response := r₂.resp.String }) ∧
    (dockerReverseProxyHandler Do requestString
        (dockerReverseProxyHandler Do requestString w ctx₁).1 ctx₂).1.client = r₂.client := by
  have e₁ : (Do w.client (requestString ctx₁.request) ctx₁.response).err = some e := by
    rw [hr₁]; exact h₁
  have hc : (dockerReverseProxyHandler Do requestString w ctx₁).1.client =
      { Addr := r₁.client.Addr, conns := [] } := by
    rw [handler_failure_eq Do requestString w ctx₁ e e₁, hr₁]
    rfl
  have hany : ∀ t : List Event,
      dockerReverseProxyHandler Do requestString
          { client := (dockerReverseProxyHandler Do requestString w ctx₁).1.client, trace := t }
          ctx₂ =
        ({ client := r₂.client,
           trace := t ++
             [.logRequest (requestString ctx₂.request), .clientDo (requestString ctx₂.request),
              .logResponse r₂.resp.String] },
         { request := r₂.req, response := r₂.resp.String }) := by
    intro t
    have e₂ : (Do (World.mk (dockerReverseProxyHandler Do requestString w ctx₁).1.client
        t).client (requestString ctx₂.request) ctx₂.response).err = none := by
      simp only [hc, hr₂]; exact h₂
    rw [handler_success_eq Do requestString _ ctx₂ e₂]
    simp only [hc, hr₂]
  have hsecond := hany (dockerReverseProxyHandler Do requestString w ctx₁).1.trace
  refine ⟨hc, ?_, ?_, ?_, ?_⟩
  · exact congrArg Prod.snd hsecond
  · have h2 : (dockerReverseProxyHandler Do requestString
        (dockerReverseProxyHandler Do requestString w ctx₁).1 ctx₂).2 =
        { request := r₂.req, response := r₂.resp.String } := congrArg Prod.snd hsecond
    rw [h2]
    refine ⟨Response.String_statusCode _, Response.String_body _, ?_⟩
    rcases Response.String_header r₂.resp with ⟨hh, _⟩ | ⟨hh, _⟩
    · simp only [hh]
    · simp only [hh, List.filter_filter, Bool.and_self]
  · intro t
    exact congrArg Prod.snd (hany t)
  · exact congrArg (fun x => x.1.client) hsecond

/-- C8 (as amended) at the recovering backend: it fails on the two pooled
connections, the pool is emptied while the address stays, and the next request
gets its 200 response. -/
theorem second_request_unaffected_by_earlier_failure_witness :
    (dockerReverseProxyHandler recoveringBackend id sampleWorld sampleCtx).1.client =
        { Addr := "/var/run/docker.sock", conns := [] } ∧
    (dockerReverseProxyHandler recoveringBackend id
        (dockerReverseProxyHandler recoveringBackend id sampleWorld sampleCtx).1 sampleCtx).2 =
      { request := sampleCtx.request,
        response := { statusCode := 200, header := [("Content-Type", "application/json")],
                      contentLength := 2, body := "[]", SkipBody := false } } :=
  ⟨(second_request_unaffected_by_earlier_failure recoveringBackend id sampleWorld sampleCtx
      sampleCtx "dial unix /var/run/docker.sock: connect: no such file or directory"
      (unreachableBackend sampleWorld.client sampleCtx.request sampleCtx.response)
      (healthyBackend { Addr := "/var/run/docker.sock", conns := [] } sampleCtx.request
        sampleCtx.response)
      rfl rfl rfl rfl).1.trans rfl,
   (second_request_unaffected_by_earlier_failure recoveringBackend id sampleWorld sampleCtx
      sampleCtx "dial unix /var/run/docker.sock: connect: no such file or directory"
      (unreachableBackend sampleWorld.client sampleCtx.request sampleCtx.response)
      (healthyBackend { Addr := "/var/run/docker.sock", conns := [] } sampleCtx.request
        sampleCtx.response)
      rfl rfl rfl rfl).2.1.trans rfl⟩

/-! ## Startup: what `listenDocker` does before it serves -/

/-- The serve call is the first thing `listenDockerAgent` does. -/
theorem listenDockerAgent_head (env : Env) (a : String) :
    (listenDockerAgent env a).1.head? = some (.listenAndServe a) := by
  unfold listenDockerAgent
  cases env.ListenAndServe a <;> rfl

/-- Every event of `listenDockerAgent` is the plain serve call on its own
argument or the fatal log behind it. -/
theorem listenDockerAgent_events (env : Env) (a : String) (ev : Event)
    (h : ev ∈ (listenDockerAgent env a).1) :
    ev = .listenAndServe a ∨ ∃ m, ev = .logFatalf m := by
  unfold listenDockerAgent at h
  cases hs : env.ListenAndServe a with
  | none =>
    simp only [hs, List.mem_singleton] at h
    exact Or.inl h
  | some err =>
    simp only [hs, List.mem_cons, List.mem_singleton, List.not_mem_nil, or_false] at h
    rcases h with h | h
    · exact Or.inl h
    · exact Or.inr ⟨_, h⟩

/-- Every event of `listenDocker` is a warning, a panic, a fatal log or a plain
serve call. -/
theorem listenDocker_events (env : Env) (dockerAgentAddr : String) (ev : Event)
    (h : ev ∈ (listenDocker env dockerAgentAddr).1) :
    ev = .logPrint httpsWarning ∨ (∃ e, ev = .panicked e) ∨ (∃ m, ev = .logFatalf m) ∨
      ∃ a, ev = .listenAndServe a := by
  unfold listenDocker at h
  cases hf : env.IsFileExist dockerSocketFile with
  | false =>
    simp only [hf, Bool.false_eq_true, if_false, List.mem_singleton] at h
    exact Or.inr (Or.inr (Or.inl ⟨_, h⟩))
  | true =>
    simp only [hf, if_true] at h
    cases hp : env.Parse dockerAgentAddr with
    | error e =>
      simp only [hp, List.mem_singleton] at h
      exact Or.inr (Or.inl ⟨_, h⟩)
    | ok addr =>
      simp only [hp, List.mem_append] at h
      rcases h with h | h
      · split at h
        · simp only [List.mem_singleton] at h
          exact Or.inl h
        · cases h
      · rcases listenDockerAgent_events env _ ev h with h | ⟨m, h⟩
        · exact Or.inr (Or.inr (Or.inr ⟨_, h⟩))
        · exact Or.inr (Or.inr (Or.inl ⟨m, h⟩))

/-- Without the socket file `listenDocker` logs the fatal line and exits. -/
theorem listenDocker_without_socket_file (env : Env) (dockerAgentAddr : String)
    (h : env.IsFileExist dockerSocketFile = false) :
    listenDocker env dockerAgentAddr =
      ([.logFatalf "Docker socket file not exist: /var/run/docker.sock"], .exited) := by
  simp only [listenDocker, h, Bool.false_eq_true, if_false]
  rfl

/-- On no path does `listenDocker` load a key pair or start a TLS listener, and
the serve call of `listenDockerAgent` is the plain one on its argument. -/
theorem listenDocker_never_serves_tls (env : Env) (dockerAgentAddr : String) :
    (∀ a, (listenDockerAgent env a).1.head? = some (.listenAndServe a)) ∧
    (∀ ev ∈ (listenDocker env dockerAgentAddr).1,
      (∀ a cert key, ev ≠ .listenAndServeTLS a cert key) ∧
      (∀ pem key, ev ≠ .loadX509KeyPair pem key)) := by
  refine ⟨fun a => listenDockerAgent_head env a, fun ev hev => ?_⟩
  rcases listenDocker_events env dockerAgentAddr ev hev with h | ⟨_, h⟩ | ⟨_, h⟩ | ⟨_, h⟩ <;>
    subst h <;>
    exact ⟨fun _ _ _ hc => (by cases hc), fun _ _ hc => (by cases hc)⟩

/-- C4 at the listen address `https://localhost:6058` of the test in the file
header, with the socket file present: `listenDocker` logs the https warning
and makes one plain serve call on `localhost:6058`; no TLS serve call and no
key-pair load is among its events, so the listener is given no certificate
and no private key. -/
theorem listener_given_no_certificate_at_test_address :
    listenDocker (goEnv true) "https://localhost:6058" =
        ([.logPrint httpsWarning, .listenAndServe "localhost:6058"], .returned) ∧
      (¬ ∃ cert key, Event.listenAndServeTLS "localhost:6058" cert key ∈
        (listenDocker (goEnv true) "https://localhost:6058").1) ∧
      (¬ ∃ pem key, Event.loadX509KeyPair pem key ∈
        (listenDocker (goEnv true) "https://localhost:6058").1) := by
  have h : listenDocker (goEnv true) "https://localhost:6058" =
      ([.logPrint httpsWarning, .listenAndServe "localhost:6058"], .returned) := by rfl
  refine ⟨h, ?_, ?_⟩
  · rintro ⟨cert, key, hm⟩
    rw [h] at hm
    simp at hm
  · rintro ⟨pem, key, hm⟩
    rw [h] at hm
    simp at hm

/-- C5: when the backend socket file does not exist, `listenDocker` logs the
fatal line and the process exits; that line is its only event, so
`listenDockerAgent` is not called and no address is handed to a listener. -/
theorem missing_socket_file_exits_before_listening (env : Env) (dockerAgentAddr : String)
    (h : env.IsFileExist dockerSocketFile = false) :
    listenDocker env dockerAgentAddr =
        ([.logFatalf "Docker socket file not exist: /var/run/docker.sock"], .exited) ∧
      (∀ a, Event.listenAndServe a ∉ (listenDocker env dockerAgentAddr).1) ∧
      (∀ a cert key, Event.listenAndServeTLS a cert key ∉ (listenDocker env dockerAgentAddr).1) := by
  have heq := listenDocker_without_socket_file env dockerAgentAddr h
  refine ⟨heq, ?_, ?_⟩
  · intro a hm
    rw [heq] at hm
    simp at hm
  · intro a cert key hm
    rw [heq] at hm
    simp at hm

/-- C5 with the socket file absent and the address `http://127.0.0.1:6058`. -/
theorem missing_socket_file_exits_before_listening_witness :
    (goEnv false).IsFileExist dockerSocketFile = false ∧
      listenDocker (goEnv false) "http://127.0.0.1:6058" =
        ([.logFatalf "Docker socket file not exist: /var/run/docker.sock"], .exited) :=
  ⟨rfl, (missing_socket_file_exits_before_listening (goEnv false) "http://127.0.0.1:6058" rfl).1⟩

/-- C6 (as amended): for every listen address that `url.Parse` rejects,
`listenDocker` does not return normally and hands no address to a listener:
with the socket file present it panics with the parse error as its only event,
otherwise it exits in the fatal log. -/
theorem rejected_address_is_fatal_before_listening (env : Env) (dockerAgentAddr : String)
    (err : url.Error) (h : env.Parse dockerAgentAddr = .error err) :
    (listenDocker env dockerAgentAddr).2 ≠ .returned ∧
      (∀ a, Event.listenAndServe a ∉ (listenDocker env dockerAgentAddr).1) ∧
      (∀ a cert key, Event.listenAndServeTLS a cert key ∉ (listenDocker env dockerAgentAddr).1) ∧
      (env.IsFileExist dockerSocketFile = true →
        listenDocker env dockerAgentAddr = ([.panicked err], .panicked)) := by
  cases hf : env.IsFileExist dockerSocketFile with
  | false =>
    have heq := listenDocker_without_socket_file env dockerAgentAddr hf
    refine ⟨?_, ?_, ?_, fun hc => (by cases hc)⟩
    · rw [heq]; exact fun hc => (by cases hc)
    · intro a hm
      rw [heq] at hm
      simp at hm
    · intro a cert key hm
      rw [heq] at hm
      simp at hm
  | true =>
    have heq : listenDocker env dockerAgentAddr = ([.panicked err], .panicked) := by
      simp only [listenDocker, hf, if_true, h]
    refine ⟨?_, ?_, ?_, fun _ => heq⟩
    · rw [heq]; exact fun hc => (by cases hc)
    · intro a hm
      rw [heq] at hm
      simp at hm
    · intro a cert key hm
      rw [heq] at hm
      simp at hm

/-- C6 (as amended) at `127.0.0.1:6058`, which `url.Parse` rejects because its
first path segment holds a colon. -/
theorem rejected_address_is_fatal_before_listening_witness :
    (goEnv true).Parse "127.0.0.1:6058" = .error .firstPathSegmentColon ∧
      listenDocker (goEnv true) "127.0.0.1:6058" =
        ([.panicked .firstPathSegmentColon], .panicked) :=
  ⟨rfl,
   (rejected_address_is_fatal_before_listening (goEnv true) "127.0.0.1:6058"
      .firstPathSegmentColon rfl).2.2.2 rfl⟩

/-- C6 fails as stated: `localhost` denotes no host and port (it has no port;
`url.Parse` reads it as a path, with empty host name and empty port), yet with
the socket file present `listenDocker` does not fail on it: it hands the
address `:` to the listener and returns. -/
theorem address_without_host_and_port_reaches_listener :
    net.SplitHostPort "localhost" = .error .missingPort ∧
      url.Parse "localhost" = .ok { Path := "localhost".toList } ∧
      (url.URL.Hostname { Path := "localhost".toList } = "" ∧
        url.URL.Port { Path := "localhost".toList } = "") ∧
      listenDocker (goEnv true) "localhost" = ([.listenAndServe ":"], .returned) :=
  ⟨rfl, rfl, ⟨rfl, rfl⟩, rfl⟩

/-- C9: when the socket file exists and the listen address parses, the events of
`listenDocker` are the redirect warning, present exactly when the parsed scheme
is `https`, followed by those of `listenDockerAgent` on host name, colon, port;
so the serve call on that address is made in both cases and the outcome is the
one of `listenDockerAgent`. -/
theorem https_scheme_warns_and_still_listens (env : Env) (dockerAgentAddr : String)
    (addr : url.URL) (hfile : env.IsFileExist dockerSocketFile = true)
    (hparse : env.Parse dockerAgentAddr = .ok addr) :
    (Event.logPrint httpsWarning ∈ (listenDocker env dockerAgentAddr).1 ↔
        String.mk addr.Scheme = "https") ∧
      listenDocker env dockerAgentAddr =
        ((if String.mk addr.Scheme = "https" then [Event.logPrint httpsWarning] else []) ++
            (listenDockerAgent env (addr.Hostname ++ ":" ++ addr.Port)).1,
          (listenDockerAgent env (addr.Hostname ++ ":" ++ addr.Port)).2) ∧
      Event.listenAndServe (addr.Hostname ++ ":" ++ addr.Port) ∈
        (listenDocker env dockerAgentAddr).1 ∧
      (∀ e, Event.panicked e ∉ (listenDocker env dockerAgentAddr).1) := by
  have heq : listenDocker env dockerAgentAddr =
      ((if String.mk addr.Scheme = "https" then [Event.logPrint httpsWarning] else []) ++
          (listenDockerAgent env (addr.Hostname ++ ":" ++ addr.Port)).1,
        (listenDockerAgent env (addr.Hostname ++ ":" ++ addr.Port)).2) := by
    simp only [listenDocker, hfile, if_true, hparse]
  have hserve : Event.listenAndServe (addr.Hostname ++ ":" ++ addr.Port) ∈
      (listenDockerAgent env (addr.Hostname ++ ":" ++ addr.Port)).1 :=
    List.mem_of_mem_head? (listenDockerAgent_head env _)
  have hnowarn : Event.logPrint httpsWarning ∉
      (listenDockerAgent env (addr.Hostname ++ ":" ++ addr.Port)).1 := by
    intro hm
    rcases listenDockerAgent_events env _ _ hm with hc | ⟨_, hc⟩ <;> cases hc
  have hnopanic : ∀ e, Event.panicked e ∉
      (listenDockerAgent env (addr.Hostname ++ ":" ++ addr.Port)).1 := by
    intro e hm
    rcases listenDockerAgent_events env _ _ hm with hc | ⟨_, hc⟩ <;> cases hc
  refine ⟨?_, heq, ?_, ?_⟩
  · rw [heq]
    by_cases hs : String.mk addr.Scheme = "https"
    · simp [hs]
    · simp [hs, hnowarn]
  · rw [heq]
    exact List.mem_append_right _ hserve
  · intro e hm
    rw [heq] at hm
    rcases List.mem_append.mp hm with hm | hm
    · split at hm
      · simp at hm
      · cases hm
    · exact hnopanic e hm

/-- C9 at `https://0.0.0.0:6058` with the socket file present: the warning is
logged and the serve call on `0.0.0.0:6058` follows. -/
theorem https_scheme_warns_and_still_listens_witness :
    (goEnv true).IsFileExist dockerSocketFile = true ∧
      (goEnv true).Parse "https://0.0.0.0:6058" =
        .ok { Scheme := "https".toList, Host := "0.0.0.0:6058".toList } ∧
      listenDocker (goEnv true) "https://0.0.0.0:6058" =
        ([.logPrint httpsWarning, .listenAndServe "0.0.0.0:6058"], .returned) :=
  ⟨rfl, rfl,
   (https_scheme_warns_and_still_listens (goEnv true) "https://0.0.0.0:6058"
      { Scheme := "https".toList, Host := "0.0.0.0:6058".toList } rfl rfl).2.1.trans rfl⟩

/-! ## The address handed to the listener -/

/-- A byte that does not occur has no last index. -/
theorem LastIndexByte_eq_none (s : List Char) (c : Char) (h : c ∉ s) :
    strings.LastIndexByte s c = none := by
  induction s with
  | nil => rfl
  | cons x xs ih =>
    have hx : x ≠ c := fun hxc => h (hxc ▸ List.mem_cons_self x xs)
    have hxs : c ∉ xs := fun hm => h (List.mem_cons_of_mem x hm)
    simp [strings.LastIndexByte, ih hxs, hx]

/-- In `h ++ c :: p` with no `c` in `p`, the last `c` is the one after `h`. -/
theorem LastIndexByte_append_sep (h p : List Char) (c : Char) (hp : c ∉ p) :
    strings.LastIndexByte (h ++ c :: p) c = some h.length := by
  induction h with
  | nil => simp [strings.LastIndexByte, LastIndexByte_eq_none p c hp]
  | cons x xs ih => simp [strings.LastIndexByte, ih]

/-- A byte that does not occur has no first index. -/
theorem IndexByte_eq_none (s : List Char) (c : Char) (h : c ∉ s) :
    strings.IndexByte s c = none := by
  induction s with
  | nil => rfl
  | cons x xs ih =>
    have hx : x ≠ c := fun hxc => h (hxc ▸ List.mem_cons_self x xs)
    have hxs : c ∉ xs := fun hm => h (List.mem_cons_of_mem x hm)
    simp [strings.IndexByte, ih hxs, hx]

/-- A valid optional port holds only digits after its first byte. -/
theorem validOptionalPort_tail (c : Char) (rest : List Char)
    (h : url.validOptionalPort (c :: rest) = true) :
    ∀ b ∈ rest, url.inRange '0' '9' b = true := by
  simp only [url.validOptionalPort, Bool.and_eq_true, List.all_eq_true] at h
  exact h.2

/-- The port `splitHostPort` gives holds only digits. -/
theorem splitHostPort_port_digits (hostPort : List Char) :
    ∀ b ∈ (url.splitHostPort hostPort).2, url.inRange '0' '9' b = true := by
  have key : ∀ host port : List Char, (∀ b ∈ port, url.inRange '0' '9' b = true) →
      ∀ b ∈ (if (strings.startsWith host ['['] && strings.endsWith host [']']) = true then
        ((host.take (host.length - 1)).drop 1, port) else (host, port)).2,
        url.inRange '0' '9' b = true := by
    intro host port hport
    split <;> exact hport
  have hnil : ∀ b ∈ ([] : List Char), url.inRange '0' '9' b = true :=
    fun b hb => absurd hb (List.not_mem_nil b)
  unfold url.splitHostPort
  cases hl : strings.LastIndexByte hostPort ':' with
  | none => exact key _ _ hnil
  | some colon =>
    simp only
    by_cases hv : url.validOptionalPort (hostPort.drop colon) = true
    · simp only [hv, if_true]
      apply key
      cases hd : hostPort.drop colon with
      | nil =>
        have : hostPort.drop (colon + 1) = [] := by
          rw [← List.drop_drop, hd]; rfl
        rw [this]; exact hnil
      | cons c rest =>
        have : hostPort.drop (colon + 1) = rest := by
          rw [← List.drop_drop, hd]; rfl
        rw [this]
        rw [hd] at hv
        exact validOptionalPort_tail c rest hv
    · simp only [hv]
      exact key _ _ hnil

/-- A list of digits holds none of the given byte when that byte is no digit. -/
theorem not_mem_of_digits (p : List Char) (c : Char)
    (hp : ∀ b ∈ p, url.inRange '0' '9' b = true) (hc : url.inRange '0' '9' c = false) :
    c ∉ p := by
  intro hm
  rw [hp c hm] at hc
  exact Bool.noConfusion hc

/-- The port `splitHostPort` gives holds no colon. -/
theorem splitHostPort_port_no_colon (hostPort : List Char) :
    ':' ∉ (url.splitHostPort hostPort).2 :=
  not_mem_of_digits _ ':' (splitHostPort_port_digits hostPort) (by decide)

/-- A host, a colon and a port without colon split back at the last colon. -/
theorem splitAtSeparator_join (h p : List Char) (hp : ':' ∉ p) :
    splitAtSeparator (String.mk h ++ ":" ++ String.mk p) = some (String.mk h, String.mk p) := by
  have hdata : (String.mk h ++ ":" ++ String.mk p).toList = h ++ ':' :: p := by
    simp [String.toList, String.data_append]
  unfold splitAtSeparator
  rw [hdata, LastIndexByte_append_sep h p ':' hp]
  have htake : List.take h.length (h ++ ':' :: p) = h := List.take_left' rfl
  have hdrop : List.drop (h.length + 1) (h ++ ':' :: p) = p := by
    have hsplit : h ++ ':' :: p = (h ++ [':']) ++ p := by
      rw [List.append_assoc]; rfl
    rw [hsplit]
    exact List.drop_left' (by rw [List.length_append]; rfl)
  simp only [htake, hdrop]

/-- A host without colon or square bracket, a colon and a port of digits are
taken apart by `net.SplitHostPort` as that host and that port. -/
theorem SplitHostPort_join (h p : List Char)
    (hc : ':' ∉ h) (ho : '[' ∉ h) (hcl : ']' ∉ h)
    (hp : ∀ b ∈ p, url.inRange '0' '9' b = true) :
    net.SplitHostPort (String.mk h ++ ":" ++ String.mk p) =
      .ok (String.mk h, String.mk p) := by
  have hdata : (String.mk h ++ ":" ++ String.mk p).toList = h ++ ':' :: p := by
    simp [String.toList, String.data_append]
  have hpc : ':' ∉ p := not_mem_of_digits p ':' hp (by decide)
  have hpo : '[' ∉ p := not_mem_of_digits p '[' hp (by decide)
  have hpcl : ']' ∉ p := not_mem_of_digits p ']' hp (by decide)
  have hstart : strings.startsWith (h ++ ':' :: p) ['['] = false := by
    cases h with
    | nil =>
      have hne : (':' : Char) ≠ '[' := by decide
      simp [strings.startsWith, hne]
    | cons x xs =>
      have hx : x ≠ '[' := fun hx => ho (hx ▸ List.mem_cons_self x xs)
      simp [strings.startsWith, hx]
  have htake : List.take h.length (h ++ ':' :: p) = h := List.take_left' rfl
  have hdrop : List.drop (h.length + 1) (h ++ ':' :: p) = p := by
    have hsplit : h ++ ':' :: p = (h ++ [':']) ++ p := by
      rw [List.append_assoc]; rfl
    rw [hsplit]
    exact List.drop_left' (by rw [List.length_append]; rfl)
  have h1 : strings.IndexByte h ':' = none := IndexByte_eq_none h ':' hc
  have h2 : strings.IndexByte (h ++ ':' :: p) '[' = none := by
    apply IndexByte_eq_none
    intro hm
    rcases List.mem_append.mp hm with hm | hm
    · exact ho hm
    · rcases List.mem_cons.mp hm with hm | hm
      · exact absurd hm (by decide)
      · exact hpo hm
  have h3 : strings.IndexByte (h ++ ':' :: p) ']' = none := by
    apply IndexByte_eq_none
    intro hm
    rcases List.mem_append.mp hm with hm | hm
    · exact hcl hm
    · rcases List.mem_cons.mp hm with hm | hm
      · exact absurd hm (by decide)
      · exact hpcl hm
  unfold net.SplitHostPort
  simp only [hdata, LastIndexByte_append_sep h p ':' hpc, hstart, htake, h1, List.drop_zero,
    h2, h3, hdrop, Option.isSome_none, Bool.false_eq_true, if_false]

/-- With the socket file present and a parsed address, the events of
`listenDocker` are the warning, if any, and those of `listenDockerAgent`. -/
theorem listenDocker_parsed_eq (env : Env) (dockerAgentAddr : String) (addr : url.URL)
    (hfile : env.IsFileExist dockerSocketFile = true)
    (hparse : env.Parse dockerAgentAddr = .ok addr) :
    listenDocker env dockerAgentAddr =
      ((if String.mk addr.Scheme = "https" then [Event.logPrint httpsWarning] else []) ++
          (listenDockerAgent env (addr.Hostname ++ ":" ++ addr.Port)).1,
        (listenDockerAgent env (addr.Hostname ++ ":" ++ addr.Port)).2) := by
  simp only [listenDocker, hfile, if_true, hparse]

/-- C10 fails as stated: `http://[::1]:6058` parses to the IPv6 host `::1` and the
port `6058`, `listenDocker` hands the string `::1:6058` to the listener, and to
the listener that string does not denote host `::1` and port `6058`:
`net.SplitHostPort` rejects it for its colons, `fasthttp.ListenAndServe` fails
and `listenDockerAgent` exits in its fatal log. -/
theorem ipv6_address_rejected_by_listener :
    url.Parse "http://[::1]:6058" =
        .ok { Scheme := "http".toList, Host := "[::1]:6058".toList } ∧
      url.URL.Hostname { Scheme := "http".toList, Host := "[::1]:6058".toList } = "::1" ∧
      url.URL.Port { Scheme := "http".toList, Host := "[::1]:6058".toList } = "6058" ∧
      net.SplitHostPort "::1:6058" = .error .tooManyColons ∧
      net.SplitHostPort "::1:6058" ≠ .ok ("::1", "6058") ∧
      listenDocker (goEnv true) "http://[::1]:6058" =
        ([.listenAndServe "::1:6058",
          .logFatalf ("Error in fasthttp server: " ++
            "listen tcp4: address ::1:6058: too many colons in address")], .exited) :=
  ⟨rfl, rfl, rfl, rfl, fun hc => (by cases hc), rfl⟩

/-- C10 (as amended): when the socket file exists and the listen address parses
to host `h` (`Hostname()`) and port `p` (`Port()`), the address `listenDocker`
hands to `listenDockerAgent`, and so to the listener, is `h` followed by `:`
followed by `p` and no other. Cutting that string at its last colon gives back
`h` and `p` for every parsed address, so also when `h` is an IPv6 literal and
when `p` is empty. To the listener, which reads it with `net.SplitHostPort`,
the string denotes host `h` and port `p` whenever `h` holds no colon and no
square bracket, an empty `p` included. -/
theorem passed_address_is_host_colon_port_and_splits_back (env : Env)
    (dockerAgentAddr : String) (addr : url.URL)
    (hfile : env.IsFileExist dockerSocketFile = true)
    (hparse : env.Parse dockerAgentAddr = .ok addr) :
    Event.listenAndServe (addr.Hostname ++ ":" ++ addr.Port) ∈
        (listenDocker env dockerAgentAddr).1 ∧
      (∀ a, Event.listenAndServe a ∈ (listenDocker env dockerAgentAddr).1 →
        a = addr.Hostname ++ ":" ++ addr.Port) ∧
      splitAtSeparator (addr.Hostname ++ ":" ++ addr.Port) =
        some (addr.Hostname, addr.Port) ∧
      (':' ∉ addr.Hostname.toList → '[' ∉ addr.Hostname.toList →
        ']' ∉ addr.Hostname.toList →
        net.SplitHostPort (addr.Hostname ++ ":" ++ addr.Port) =
          .ok (addr.Hostname, addr.Port)) := by
  have heq := listenDocker_parsed_eq env dockerAgentAddr addr hfile hparse
  refine ⟨?_, ?_, ?_, ?_⟩
  · rw [heq]
    exact List.mem_append_right _ (List.mem_of_mem_head? (listenDockerAgent_head env _))
  · intro a hm
    rw [heq] at hm
    rcases List.mem_append.mp hm with hm | hm
    · split at hm
      · simp at hm
      · cases hm
    · rcases listenDockerAgent_events env _ _ hm with hc | ⟨_, hc⟩
      · exact Event.listenAndServe.inj hc
      · cases hc
  · exact splitAtSeparator_join _ _ (splitHostPort_port_no_colon addr.Host)
  · intro hc ho hcl
    exact SplitHostPort_join _ _ hc ho hcl (splitHostPort_port_digits addr.Host)

/-- C10 (as amended) with the socket file present: at the IPv6 listen address
`http://[::1]:6058` the string handed over is `::1:6058` and its last colon
parts host `::1` from port `6058`; at `http://localhost` (empty port) the
string is `localhost:`, which the last colon and `net.SplitHostPort` alike
take apart as `localhost` and the empty port. -/
theorem passed_address_is_host_colon_port_and_splits_back_witness :
    ((goEnv true).Parse "http://[::1]:6058" =
        .ok { Scheme := "http".toList, Host := "[::1]:6058".toList } ∧
      Event.listenAndServe "::1:6058" ∈ (listenDocker (goEnv true) "http://[::1]:6058").1 ∧
      splitAtSeparator "::1:6058" = some ("::1", "6058")) ∧
    ((goEnv true).Parse "http://localhost" =
        .ok { Scheme := "http".toList, Host := "localhost".toList } ∧
      Event.listenAndServe "localhost:" ∈ (listenDocker (goEnv true) "http://localhost").1 ∧
      splitAtSeparator "localhost:" = some ("localhost", "") ∧
      net.SplitHostPort "localhost:" = .ok ("localhost", "")) :=
  ⟨⟨rfl,
    (passed_address_is_host_colon_port_and_splits_back (goEnv true) "http://[::1]:6058"
      { Scheme := "http".toList, Host := "[::1]:6058".toList } rfl rfl).1,
    (passed_address_is_host_colon_port_and_splits_back (goEnv true) "http://[::1]:6058"
      { Scheme := "http".toList, Host := "[::1]:6058".toList } rfl rfl).2.2.1⟩,
   ⟨rfl,
    (passed_address_is_host_colon_port_and_splits_back (goEnv true) "http://localhost"
      { Scheme := "http".toList, Host := "localhost".toList } rfl rfl).1,
    (passed_address_is_host_colon_port_and_splits_back (goEnv true) "http://localhost"
      { Scheme := "http".toList, Host := "localhost".toList } rfl rfl).2.2.1,
    (passed_address_is_host_colon_port_and_splits_back (goEnv true) "http://localhost"
      { Scheme := "http".toList, Host := "localhost".toList } rfl rfl).2.2.2
      (by decide) (by decide) (by decide)⟩⟩

end DockerAgent
